import Mathlib

/-!
Verification of the risk-scoring core of the Black Widow OSINT platform.

The definitions below are a shallow embedding of the pipeline implemented in
`app.py` (keyword signal extraction, category scoring, weighted aggregation,
red-flag synthesis, narrative generation) and of the adverse-media keyword
matching in `modules/news_search.py`.  Python numbers are modelled by `Nat`
(counts) and `ℚ` (scores, weights and currency amounts, exact arithmetic in
place of IEEE floats); Python strings by `String`; values that may be absent
(`dict.get` returning `None` / a missing key / a non-list error marker) by
`Option`.  The Python `kw in text` test on strings is substring containment,
embedded as list-infix containment on the character lists; `str.lower()` is
embedded by mapping `Char.toLower` over the characters (both the source
keywords and all inputs relevant here are ASCII).
-/

/-- Lower-case a string character by character (embedding of Python
`str.lower()` for the ASCII texts handled by the pipeline). -/
def lowerStr (s : String) : String := String.mk (s.data.map Char.toLower)

/-- Substring containment, the embedding of the Python `needle in hay` test on
strings (the empty needle is contained in every string). -/
def strContains (hay needle : String) : Bool := decide (needle.toList <:+: hay.toList)

/-- Crisis keyword taxonomy, verbatim from `app.py` (`CRISIS_KEYWORDS`). -/
def CRISIS_KEYWORDS : List String :=
  ["bankruptcy", "layoff", "layoffs", "restructuring", "delisted", "SEC investigation",
   "fraud", "data breach", "hack", "cyber attack", "CEO resign", "CFO resign",
   "executive exodus", "stock crash", "default", "chapter 11", "chapter 7",
   "liquidation", "shutdown", "closing", "whistleblower", "scandal", "indictment",
   "arrested", "convicted", "settlement", "class action", "regulatory action",
   "fine", "penalty", "sanction"]

/-- Geopolitical keyword taxonomy, verbatim from `app.py`. -/
def GEOPOLITICAL_RISK_KEYWORDS : List String :=
  ["china", "russia", "iran", "north korea", "tariff", "trade war", "export control",
   "sanctions", "national security", "cfius", "foreign investment", "espionage",
   "intellectual property theft", "forced technology transfer"]

/-- Supply-chain keyword taxonomy, verbatim from `app.py`. -/
def SUPPLY_CHAIN_KEYWORDS : List String :=
  ["supply chain", "supplier", "shortage", "disruption", "single source",
   "manufacturing", "outsourced", "offshore", "vendor", "dependency"]

/-- Raw news article as handed to `analyze_news_intelligence`; every field
is read with `article.get(...)`, so each may be absent. -/
structure Article where
  title : Option String
  description : Option String
  sourceName : Option String
  publishedAt : Option String
  url : Option String
deriving DecidableEq, Repr

/-- Per-article record appended to `key_articles` by the extractor. -/
structure ArticleInfo where
  title : String
  source : String
  date : String
  url : String
  flags : List String
deriving DecidableEq, Repr

/-- Output of `analyze_news_intelligence` (the `analysis` dict). -/
structure NewsIntel where
  totalArticles : Nat
  crisisSignals : List String
  geoRisks : List String
  supplyRisks : List String
  sentimentScore : Nat
  keyArticles : List ArticleInfo
  intelligenceSummary : String
deriving DecidableEq, Repr

/-- Lower-cased concatenation of title and description
(`content = title + " " + desc` in `analyze_news_intelligence`, where missing
fields default to the empty string). -/
def contentOf (a : Article) : String :=
  lowerStr (a.title.getD "") ++ " " ++ lowerStr (a.description.getD "")

/-- Crisis-keyword matches recorded for one article (inner loop over
`CRISIS_KEYWORDS`): each keyword contained in the lower-cased content is
appended verbatim as a flag. -/
def crisisFlagsOf (a : Article) : List String :=
  CRISIS_KEYWORDS.filter (fun k => strContains (contentOf a) k)

/-- Geopolitical matches for one article, flagged with the `GEO: ` label. -/
def geoFlagsOf (a : Article) : List String :=
  (GEOPOLITICAL_RISK_KEYWORDS.filter (fun k => strContains (contentOf a) k)).map
    (fun k => "GEO: " ++ k)

/-- Supply-chain matches for one article, flagged with the `SUPPLY: ` label. -/
def supplyFlagsOf (a : Article) : List String :=
  (SUPPLY_CHAIN_KEYWORDS.filter (fun k => strContains (contentOf a) k)).map
    (fun k => "SUPPLY: " ++ k)

/-- All flag labels of one article, in the order the three loops append them. -/
def articleFlags (a : Article) : List String :=
  crisisFlagsOf a ++ geoFlagsOf a ++ supplyFlagsOf a

/-- The `article_info` dict built for each scanned article. -/
def articleInfoOf (a : Article) : ArticleInfo :=
  { title := a.title.getD "Unknown"
  , source := a.sourceName.getD "Unknown"
  , date := (a.publishedAt.getD "").take 10
  , url := a.url.getD ""
  , flags := articleFlags a }

/-- Total crisis-keyword match count over the scan window (`crisis_count`,
incremented once per matching keyword per article, over `articles[:30]`). -/
def crisisCountOf (articles : List Article) : Nat :=
  ((articles.take 30).map (fun a => (crisisFlagsOf a).length)).sum

/-- Total geopolitical match count over the scan window (`geo_count`). -/
def geoCountOf (articles : List Article) : Nat :=
  ((articles.take 30).map (fun a => (geoFlagsOf a).length)).sum

/-- Total supply-chain match count over the scan window (`supply_count`). -/
def supplyCountOf (articles : List Article) : Nat :=
  ((articles.take 30).map (fun a => (supplyFlagsOf a).length)).sum

/-- Articles of the scan window that matched at least one keyword
(`key_articles`). -/
def keyArticlesOf (articles : List Article) : List ArticleInfo :=
  ((articles.take 30).filter (fun a => !(articleFlags a).isEmpty)).map articleInfoOf

/-- Sentiment tiers of `analyze_news_intelligence`: strict greater-than
thresholds on the crisis match count, baseline 50. -/
def crisisSentiment (c : Nat) : Nat :=
  if c > 10 then 85 else if c > 5 then 70 else if c > 2 then 55 else 50

/-- Crisis signal strings emitted alongside the sentiment tiers. -/
def crisisSignalsOf (c : Nat) : List String :=
  if c > 10 then ["CRITICAL: " ++ toString c ++ " crisis indicators in recent news"]
  else if c > 5 then ["HIGH: " ++ toString c ++ " crisis indicators detected"]
  else if c > 2 then ["ELEVATED: " ++ toString c ++ " concerning mentions"]
  else []

/-- Embedding of `analyze_news_intelligence` from `app.py`. -/
def analyze_news_intelligence (articles : List Article) : NewsIntel :=
  let c := crisisCountOf articles
  let g := geoCountOf articles
  let s := supplyCountOf articles
  { totalArticles := articles.length
  , crisisSignals := crisisSignalsOf c
  , geoRisks :=
      if g > 3 then ["Significant geopolitical exposure (" ++ toString g ++ " mentions)"] else []
  , supplyRisks :=
      if s > 2 then ["Supply chain concerns identified (" ++ toString s ++ " mentions)"] else []
  , sentimentScore := crisisSentiment c
  , keyArticles := keyArticlesOf articles
  , intelligenceSummary := "" }

/-- Litigation record as consumed by the core (only the length of the list
matters to scoring; the fields mirror the record shape of the collector). -/
structure CourtRecord where
  caseName : String
  court : String
  dateFiled : String
  caseType : String
deriving DecidableEq, Repr

/-- FEC donation summary dict; `total_amount` may be missing or null
(`fec.get("total_amount", 0) or 0`). -/
structure FecData where
  totalAmount : Option ℚ
deriving DecidableEq, Repr

/-- Sanctions lookup result (`check_sanctions` returns `matches` and `count`;
only the count is consumed by scoring). -/
structure Sanctions where
  count : Nat
deriving DecidableEq, Repr

/-- The slice of the `findings["data_sources"]` dict consumed by
`calculate_risk` and `generate_intelligence_assessment`.  `court = none`
models `court_records` not being a list (the error dict of the collector), and
`fec = none` models `fec_donations` not being a dict. -/
structure Findings where
  newsIntel : NewsIntel
  court : Option (List CourtRecord)
  fec : Option FecData
  sanctions : Sanctions
deriving DecidableEq, Repr

/-- Digit list with thousands separators, least significant digit first
(helper for the Python comma number format). -/
def commaDigitsRev : Nat → List Char → List Char
  | _, [] => []
  | i, c :: rest =>
      if i ≠ 0 ∧ i % 3 = 0 then c :: ',' :: commaDigitsRev (i + 1) rest
      else c :: commaDigitsRev (i + 1) rest

/-- Decimal rendering of a natural number with commas every three digits. -/
def natCommas (n : Nat) : String :=
  String.mk ((commaDigitsRev 0 (toString n).data.reverse).reverse)

/-- Round-half-to-even to an integer, the rounding used by the Python
zero-decimals number format. -/
def roundHalfEven (q : ℚ) : ℤ :=
  let n := ⌊q⌋
  let r := q - n
  if r < 1 / 2 then n
  else if 1 / 2 < r then n + 1
  else if n % 2 = 0 then n else n + 1

/-- Embedding of the formatted dollar amount interpolated into findings: a
dollar sign followed by the comma-grouped rounded amount (the amounts
reaching it are non-negative). -/
def fmtUSD (q : ℚ) : String := "$" ++ natCommas (roundHalfEven q).toNat

/-- Red-flag record appended to `red_flags` by `calculate_risk`. -/
structure RedFlag where
  severity : String
  categoryName : String
  finding : String
  soWhat : String
  toDo : String
deriving DecidableEq, Repr

/-- One entry of the `scores` dict of `calculate_risk`. -/
structure Category where
  name : String
  score : ℚ
  weight : ℚ
  factors : List String
deriving DecidableEq, Repr

/-- Return value of `calculate_risk` (the tuple
`scores, weighted_score, red_flags`). -/
structure RiskResult where
  categories : List Category
  overall : ℚ
  redFlags : List RedFlag
deriving DecidableEq, Repr

/-- Sentiment score as read back by `calculate_risk`
(`news_intel.get("sentiment_score", 50)`). -/
def sentimentOf (f : Findings) : Nat := f.newsIntel.sentimentScore

/-- The `crisis_keywords_found` set of `calculate_risk`: every flag of every
key article, lower-cased (as a list; only membership is consumed). -/
def foundKeywords (f : Findings) : List String :=
  (f.newsIntel.keyArticles.flatMap (fun a => a.flags)).map lowerStr

/-- Condition for the corporate-crisis block (`sentiment >= 80`). -/
def crisisCond (f : Findings) : Prop := sentimentOf f ≥ 80

/-- Condition for the bankruptcy block of `calculate_risk`. -/
def bankruptcyCond (f : Findings) : Prop :=
  "bankruptcy" ∈ foundKeywords f ∨ "chapter 11" ∈ foundKeywords f ∨
    "chapter 7" ∈ foundKeywords f

/-- Condition for the cybersecurity block of `calculate_risk`. -/
def breachCond (f : Findings) : Prop :=
  "data breach" ∈ foundKeywords f ∨ "hack" ∈ foundKeywords f ∨
    "cyber attack" ∈ foundKeywords f

/-- Condition for the leadership block of `calculate_risk`. -/
def leadershipCond (f : Findings) : Prop :=
  "ceo resign" ∈ foundKeywords f ∨ "cfo resign" ∈ foundKeywords f ∨
    "executive exodus" ∈ foundKeywords f

/-- Condition for the regulatory/fraud block of `calculate_risk`. -/
def fraudCond (f : Findings) : Prop :=
  "sec investigation" ∈ foundKeywords f ∨ "fraud" ∈ foundKeywords f ∨
    "indictment" ∈ foundKeywords f ∨ "convicted" ∈ foundKeywords f

/-- Condition for the workforce-restructuring block of `calculate_risk`. -/
def layoffCond (f : Findings) : Prop :=
  "layoff" ∈ foundKeywords f ∨ "layoffs" ∈ foundKeywords f ∨
    "restructuring" ∈ foundKeywords f

/-- China test inside the geopolitical block
(`any("china" in str(r).lower() for r in geo_risks)`). -/
def chinaCond (f : Findings) : Bool :=
  f.newsIntel.geoRisks.any (fun r => strContains (lowerStr r) "china")

/-- Sanctions condition (`sanctions.get("count", 0) > 0`). -/
def sanctionsCond (f : Findings) : Prop := f.sanctions.count > 0

/-- Donation amount as read by `calculate_risk`
(`fec.get("total_amount", 0) or 0` when `fec` is a dict, no effect otherwise). -/
def amtOf (f : Findings) : ℚ :=
  match f.fec with
  | some d => d.totalAmount.getD 0
  | none => 0

/-- Court-record count (`len(court)` when `court_records` is a list). -/
def courtCountOf (f : Findings) : Nat :=
  match f.court with
  | some cs => cs.length
  | none => 0

/-- Decidability of the scoring conditions (all are Boolean tests in the
source). -/
instance (f : Findings) : Decidable (crisisCond f) :=
  inferInstanceAs (Decidable (sentimentOf f ≥ 80))

instance (f : Findings) : Decidable (bankruptcyCond f) :=
  inferInstanceAs (Decidable ("bankruptcy" ∈ foundKeywords f ∨
    "chapter 11" ∈ foundKeywords f ∨ "chapter 7" ∈ foundKeywords f))

instance (f : Findings) : Decidable (breachCond f) :=
  inferInstanceAs (Decidable ("data breach" ∈ foundKeywords f ∨
    "hack" ∈ foundKeywords f ∨ "cyber attack" ∈ foundKeywords f))

instance (f : Findings) : Decidable (leadershipCond f) :=
  inferInstanceAs (Decidable ("ceo resign" ∈ foundKeywords f ∨
    "cfo resign" ∈ foundKeywords f ∨ "executive exodus" ∈ foundKeywords f))

instance (f : Findings) : Decidable (fraudCond f) :=
  inferInstanceAs (Decidable ("sec investigation" ∈ foundKeywords f ∨
    "fraud" ∈ foundKeywords f ∨ "indictment" ∈ foundKeywords f ∨
    "convicted" ∈ foundKeywords f))

instance (f : Findings) : Decidable (layoffCond f) :=
  inferInstanceAs (Decidable ("layoff" ∈ foundKeywords f ∨
    "layoffs" ∈ foundKeywords f ∨ "restructuring" ∈ foundKeywords f))

instance (f : Findings) : Decidable (sanctionsCond f) :=
  inferInstanceAs (Decidable (f.sanctions.count > 0))

/-- Leadership score: baseline 15, set to 80 by executive-departure keywords. -/
def leadershipScore (f : Findings) : ℚ :=
  if leadershipCond f then 80 else 15

/-- Financial score: baseline 15, set to 80 by the `sentiment >= 80` crisis
block, then set to 95 by bankruptcy keywords (statement order of the source). -/
def financialScore (f : Findings) : ℚ :=
  let base : ℚ := if sentimentOf f ≥ 80 then 80 else 15
  if bankruptcyCond f then 95 else base

/-- Legal score: baseline 15, set to 85 by the fraud/investigation block, then
max-raised to 75 (count > 5) or 50 (count > 2) by the litigation-count block. -/
def legalScore (f : Findings) : ℚ :=
  let base : ℚ := if fraudCond f then 85 else 15
  match f.court with
  | some cs =>
      if cs.length > 5 then max base 75
      else if cs.length > 2 then max base 50
      else base
  | none => base

/-- Regulatory score: baseline 10, max-raised to 65 by the cybersecurity
block, set to 90 by the fraud block, finally set to 100 by a sanctions match
(the last assignment in the source). -/
def regulatoryScore (f : Findings) : ℚ :=
  if sanctionsCond f then 100
  else if fraudCond f then 90
  else if breachCond f then max 10 65
  else 10

/-- Reputational score: baseline 15, tiered on the sentiment score. -/
def reputationalScore (f : Findings) : ℚ :=
  if sentimentOf f ≥ 80 then 90 else if sentimentOf f ≥ 65 then 70 else 15

/-- Political score: baseline 10, tiered on the donation total. -/
def politicalScore (f : Findings) : ℚ :=
  match f.fec with
  | some d =>
      let amt := d.totalAmount.getD 0
      if amt > 500000 then 75 else if amt > 100000 then 50 else 10
  | none => 10

/-- Operational score: baseline 10, tiered on sentiment, then max-raised to 75
by the cybersecurity block and to 55 by the workforce block. -/
def operationalScore (f : Findings) : ℚ :=
  let s0 : ℚ := if sentimentOf f ≥ 80 then 75 else if sentimentOf f ≥ 65 then 55 else 10
  let s1 : ℚ := if breachCond f then max s0 75 else s0
  if layoffCond f then max s1 55 else s1

/-- Geopolitical score: baseline 10, 65 when geopolitical risks are present,
75 when one of them mentions China. -/
def geopoliticalScore (f : Findings) : ℚ :=
  if f.newsIntel.geoRisks ≠ [] then (if chinaCond f then 75 else 65) else 10

/-- Supply-chain score: baseline 10, 60 when supply-chain risks are present. -/
def supplyChainScore (f : Findings) : ℚ :=
  if f.newsIntel.supplyRisks ≠ [] then 60 else 10

/-- Factor strings accumulated for the Leadership category. -/
def leadershipFactors (f : Findings) : List String :=
  if leadershipCond f then ["Executive departure/instability"] else []

/-- Factor strings accumulated for the Financial category. -/
def financialFactors (f : Findings) : List String :=
  if bankruptcyCond f then ["CRITICAL: Bankruptcy indicators"] else []

/-- Factor strings accumulated for the Legal category. -/
def legalFactors (f : Findings) : List String :=
  match f.court with
  | some cs =>
      if cs.length > 5 then [toString cs.length ++ " litigation matters"]
      else if cs.length > 2 then [toString cs.length ++ " litigation matters"]
      else []
  | none => []

/-- Factor strings accumulated for the Regulatory category (fraud block first,
sanctions block last, as appended by the source). -/
def regulatoryFactors (f : Findings) : List String :=
  (if fraudCond f then ["CRITICAL: Regulatory/criminal investigation"] else []) ++
    (if sanctionsCond f then ["SANCTIONS MATCH"] else [])

/-- Factor strings accumulated for the Reputational category. -/
def reputationalFactors (f : Findings) : List String :=
  if sentimentOf f ≥ 80 then ["CRITICAL: Major crisis detected in news"]
  else if sentimentOf f ≥ 65 then ["HIGH: Significant negative news coverage"]
  else []

/-- Factor strings accumulated for the Political category. -/
def politicalFactors (f : Findings) : List String :=
  match f.fec with
  | some d =>
      let amt := d.totalAmount.getD 0
      if amt > 500000 then [fmtUSD amt ++ " political contributions"]
      else if amt > 100000 then [fmtUSD amt ++ " political contributions"]
      else []
  | none => []

/-- Factor strings accumulated for the Operational category (cyber block
first, workforce block second). -/
def operationalFactors (f : Findings) : List String :=
  (if breachCond f then ["Cybersecurity incident detected"] else []) ++
    (if layoffCond f then ["Workforce restructuring underway"] else [])

/-- Factor strings accumulated for the Geopolitical category. -/
def geopoliticalFactors (f : Findings) : List String :=
  if f.newsIntel.geoRisks ≠ [] then
    ["International exposure concerns"] ++
      (if chinaCond f then ["China-related risk exposure"] else [])
  else []

/-- Factor strings accumulated for the Supply Chain category. -/
def supplyChainFactors (f : Findings) : List String :=
  if f.newsIntel.supplyRisks ≠ [] then ["Supply chain vulnerabilities noted"] else []

/-- Final `scores` dict of `calculate_risk`, in its insertion order, with the
fixed weights of the source. -/
def categoriesOf (f : Findings) : List Category :=
  [ ⟨"Leadership", leadershipScore f, 0.15, leadershipFactors f⟩
  , ⟨"Financial", financialScore f, 0.20, financialFactors f⟩
  , ⟨"Legal", legalScore f, 0.15, legalFactors f⟩
  , ⟨"Regulatory", regulatoryScore f, 0.10, regulatoryFactors f⟩
  , ⟨"Reputational", reputationalScore f, 0.10, reputationalFactors f⟩
  , ⟨"Political", politicalScore f, 0.05, politicalFactors f⟩
  , ⟨"Operational", operationalScore f, 0.10, operationalFactors f⟩
  , ⟨"Geopolitical", geopoliticalScore f, 0.10, geopoliticalFactors f⟩
  , ⟨"Supply Chain", supplyChainScore f, 0.05, supplyChainFactors f⟩ ]

/-- The weighted aggregate
(`sum(scores[cat]["score"] * scores[cat]["weight"] for cat in scores)`). -/
def overallScore (f : Findings) : ℚ :=
  ((categoriesOf f).map (fun c => c.score * c.weight)).sum

/-- Red flag of the corporate-crisis block (`sentiment >= 80`). -/
def crisisRedFlag : RedFlag :=
  { severity := "CRITICAL"
  , categoryName := "Corporate Crisis"
  , finding := "Multiple crisis indicators detected in current news coverage"
  , soWhat := "Company appears to be in active crisis. News analysis shows bankruptcy, regulatory action, or major operational failure indicators. Investment at this time carries extreme risk of total loss."
  , toDo := "HALT all investment activity. If already invested, engage crisis management and exit strategy teams immediately." }

/-- Red flag of the bankruptcy block. -/
def bankruptcyRedFlag : RedFlag :=
  { severity := "CRITICAL"
  , categoryName := "Financial"
  , finding := "Bankruptcy or insolvency indicators in recent news"
  , soWhat := "Company may be insolvent or entering bankruptcy proceedings. All unsecured investments likely to result in total loss. Secured positions may face significant impairment."
  , toDo := "Do not invest. If existing exposure, engage restructuring counsel immediately." }

/-- Red flag of the cybersecurity block. -/
def breachRedFlag : RedFlag :=
  { severity := "HIGH"
  , categoryName := "Cybersecurity"
  , finding := "Data breach or cyber attack reported"
  , soWhat := "Cybersecurity incidents typically result in: regulatory fines ($10M-$500M+ for major breaches), class action litigation, customer churn (15-25%), and long-term brand damage. GDPR/CCPA exposure if consumer data involved."
  , toDo := "Request incident response report, quantify affected records, assess regulatory exposure by jurisdiction." }

/-- Red flag of the leadership block. -/
def leadershipRedFlag : RedFlag :=
  { severity := "HIGH"
  , categoryName := "Leadership"
  , finding := "Executive leadership changes or departures"
  , soWhat := "C-suite departures often precede disclosure of material issues. 67% of sudden CEO departures are followed by negative earnings surprises within 2 quarters. Institutional knowledge loss impacts operational continuity."
  , toDo := "Investigate circumstances of departure. Review D&O insurance. Assess bench strength and succession planning." }

/-- Red flag of the regulatory/fraud block. -/
def fraudRedFlag : RedFlag :=
  { severity := "CRITICAL"
  , categoryName := "Legal/Regulatory"
  , finding := "Regulatory investigation or fraud allegations"
  , soWhat := "SEC investigations result in average settlements of $50M+ for public companies. Criminal indictments can trigger immediate contract terminations, bank covenant violations, and management distraction lasting 2-4 years."
  , toDo := "HALT investment. Engage securities litigation counsel for exposure assessment." }

/-- Red flag of the China-exposure branch of the geopolitical block. -/
def chinaRedFlag : RedFlag :=
  { severity := "MEDIUM"
  , categoryName := "Geopolitical"
  , finding := "China-related business exposure identified"
  , soWhat := "China exposure creates: tariff risk, IP theft concerns, CFIUS review requirements for M&A, potential sanctions/export control issues, and ESG concerns for some institutional investors."
  , toDo := "Map China revenue/supply chain dependency. Assess CFIUS implications. Review export control compliance." }

/-- Red flag of the litigation-volume block (the finding interpolates the
court-record count). -/
def litigationRedFlag (count : Nat) : RedFlag :=
  { severity := "HIGH"
  , categoryName := "Legal"
  , finding := toString count ++ " litigation matters identified"
  , soWhat := "High litigation volume indicates potential operational issues, regulatory non-compliance, or aggressive business practices. Each active case represents legal cost of $50K-$500K+ and management distraction."
  , toDo := "Request litigation schedule with exposure estimates. Identify patterns (employment, IP, contract, regulatory)." }

/-- Red flag of the political-contribution block (the finding interpolates the
formatted amount). -/
def politicalRedFlag (amt : ℚ) : RedFlag :=
  { severity := "MEDIUM"
  , categoryName := "Political"
  , finding := fmtUSD amt ++ " in political contributions"
  , soWhat := "Heavy political spending indicates regulatory dependencies. Administration changes can impact: government contracts, regulatory approvals, tax treatment, and subsidy eligibility. Also creates PR risk if contributions become controversial."
  , toDo := "Map regulatory dependencies. Stress test business model against policy change scenarios." }

/-- Red flag of the sanctions block. -/
def sanctionsRedFlag : RedFlag :=
  { severity := "CRITICAL"
  , categoryName := "Sanctions"
  , finding := "POTENTIAL MATCH ON GLOBAL SANCTIONS LIST"
  , soWhat := "IMMEDIATE STOP. Engaging with sanctioned entities creates criminal liability for all transaction parties. Penalties include: imprisonment up to 20 years, fines of $1M+ per violation, and permanent reputational damage."
  , toDo := "CEASE ALL ACTIVITY. Engage OFAC counsel immediately. Do not proceed under any circumstances until cleared." }

/-- The `red_flags` list of `calculate_risk`: each block appends its flag, in
the statement order of the source (sanctions is the final block). -/
def redFlagsOf (f : Findings) : List RedFlag :=
  (if crisisCond f then [crisisRedFlag] else []) ++
  (if bankruptcyCond f then [bankruptcyRedFlag] else []) ++
  (if breachCond f then [breachRedFlag] else []) ++
  (if leadershipCond f then [leadershipRedFlag] else []) ++
  (if fraudCond f then [fraudRedFlag] else []) ++
  (if f.newsIntel.geoRisks ≠ [] then (if chinaCond f then [chinaRedFlag] else []) else []) ++
  (match f.court with
   | some cs => if cs.length > 5 then [litigationRedFlag cs.length] else []
   | none => []) ++
  (match f.fec with
   | some d => if d.totalAmount.getD 0 > 500000 then [politicalRedFlag (d.totalAmount.getD 0)] else []
   | none => []) ++
  (if sanctionsCond f then [sanctionsRedFlag] else [])

/-- Embedding of `calculate_risk` from `app.py`: the returned triple of the
category scores dict, the weighted overall score and the red-flag list. -/
def calculate_risk (f : Findings) : RiskResult :=
  { categories := categoriesOf f
  , overall := overallScore f
  , redFlags := redFlagsOf f }

/-- Risk-tier presentation values derived from the overall score. -/
structure RiskTier where
  level : String
  color : String
  signal : String
  recommendation : String
deriving DecidableEq, Repr

/-- Embedding of the risk-level classification chain
(`if overall >= 65: ... elif overall >= 50: ...` in the main app). -/
def riskTier (overall : ℚ) : RiskTier :=
  if overall ≥ 65 then
    ⟨"CRITICAL RISK", "#dc2626", "DO NOT PROCEED",
     "⛔ WALK AWAY. Multiple critical risk factors identified. Investment not recommended under any terms."⟩
  else if overall ≥ 50 then
    ⟨"HIGH RISK", "#ea580c", "NOT RECOMMENDED",
     "🚫 HIGH CAUTION. Significant risks require mitigation or substantial price adjustment. Consider walking away."⟩
  else if overall ≥ 35 then
    ⟨"ELEVATED RISK", "#ca8a04", "CONDITIONAL",
     "⚠️ PROCEED WITH CAUTION. Address flagged items before closing. Enhanced DD required."⟩
  else if overall ≥ 20 then
    ⟨"MODERATE RISK", "#65a30d", "PROCEED WITH MONITORING",
     "📋 Acceptable risk profile. Standard DD sufficient with ongoing monitoring of noted items."⟩
  else
    ⟨"LOW RISK", "#16a34a", "PROCEED",
     "✅ No significant concerns identified. Standard due diligence sufficient."⟩

/-- Output of `generate_intelligence_assessment` (the `assessment` dict). -/
structure Assessment where
  overallNarrative : String
  keyConcerns : List String
  riskFactors : List String
  opportunities : List String
  recommendation : String
  confidence : String
deriving DecidableEq, Repr

/-- The `crisis_keywords_found` set of `generate_intelligence_assessment`:
flags of the key articles without the `GEO:`/`SUPPLY:` prefixed ones (here the
flags are not lower-cased). -/
def rawFoundKeywords (f : Findings) : List String :=
  (f.newsIntel.keyArticles.flatMap (fun a => a.flags)).filter
    (fun fl => !fl.startsWith "GEO:" && !fl.startsWith "SUPPLY:")

/-- The fallback narrative sentence emitted when no condition is active. -/
def fallbackNarrative (target : String) : String :=
  "No significant adverse indicators identified for " ++ target ++
    " in current analysis. Standard due diligence procedures recommended."

/-- The `narrative_parts` list of `generate_intelligence_assessment`, in the
statement order of the source. -/
def narrativeParts (f : Findings) (target : String) : List String :=
  let found := rawFoundKeywords f
  (if f.sanctions.count > 0 then
     ["CRITICAL: " ++ target ++ " has potential matches on global sanctions lists. All engagement must cease pending legal review."]
   else []) ++
  (match f.newsIntel.crisisSignals with
   | [] => []
   | s0 :: _ =>
       ["Current media analysis indicates " ++ target ++ " is experiencing significant operational distress. " ++ s0 ++ "."]) ++
  (if f.newsIntel.keyArticles ≠ [] then
     (if "bankruptcy" ∈ found ∨ "chapter 11" ∈ found then
        ["CRITICAL: Bankruptcy indicators detected in recent news coverage. Company may be insolvent or approaching insolvency."]
      else []) ++
     (if "data breach" ∈ found ∨ "hack" ∈ found then
        ["ELEVATED RISK: Cybersecurity incident detected. Potential regulatory fines, litigation, and reputational damage."]
      else []) ++
     (if "layoff" ∈ found ∨ "layoffs" ∈ found then
        ["Company is undergoing workforce reduction, indicating financial pressure or strategic restructuring."]
      else []) ++
     (if "SEC investigation" ∈ found ∨ "fraud" ∈ found then
        ["CRITICAL: Regulatory investigation or fraud allegations detected. Significant legal and financial exposure."]
      else []) ++
     (if "CEO resign" ∈ found ∨ "executive exodus" ∈ found then
        ["Leadership instability detected. Executive departures often precede or indicate deeper organizational issues."]
      else [])
   else []) ++
  (if f.newsIntel.geoRisks ≠ [] then
     ["Geopolitical exposure identified: " ++ String.intercalate ", " f.newsIntel.geoRisks ++ ". Consider regulatory and market access risks."]
   else []) ++
  (if f.newsIntel.supplyRisks ≠ [] then
     ["Supply chain vulnerabilities noted: " ++ String.intercalate ", " f.newsIntel.supplyRisks ++ ". Assess concentration and disruption risk."]
   else []) ++
  (match f.court with
   | some cs =>
       if cs.length > 5 then
         ["Significant litigation history with " ++ toString cs.length ++ " court records identified. Pattern analysis recommended."]
       else []
   | none => []) ++
  (match f.fec with
   | some d =>
       if d.totalAmount.getD 0 > 100000 then
         ["Substantial political activity (" ++ fmtUSD (d.totalAmount.getD 0) ++ " in contributions) indicates regulatory relationships and potential policy exposure."]
       else []
   | none => [])

/-- The `key_concerns` list of `generate_intelligence_assessment`. -/
def keyConcernsOf (f : Findings) : List String :=
  let found := rawFoundKeywords f
  (if f.sanctions.count > 0 then ["Sanctions exposure - potential criminal liability"] else []) ++
  f.newsIntel.crisisSignals ++
  (if f.newsIntel.keyArticles ≠ [] then
     (if "bankruptcy" ∈ found ∨ "chapter 11" ∈ found then ["Bankruptcy/insolvency risk"] else []) ++
     (if "data breach" ∈ found ∨ "hack" ∈ found then ["Cybersecurity/data breach exposure"] else []) ++
     (if "SEC investigation" ∈ found ∨ "fraud" ∈ found then ["Regulatory/fraud investigation"] else []) ++
     (if "CEO resign" ∈ found ∨ "executive exodus" ∈ found then ["Leadership instability"] else [])
   else [])

/-- The `risk_factors` list of `generate_intelligence_assessment`. -/
def riskFactorsOf (f : Findings) : List String :=
  let found := rawFoundKeywords f
  (if f.newsIntel.keyArticles ≠ [] then
     if "layoff" ∈ found ∨ "layoffs" ∈ found then ["Workforce instability"] else []
   else []) ++
  f.newsIntel.geoRisks ++
  f.newsIntel.supplyRisks ++
  (match f.court with
   | some cs =>
       if cs.length > 5 then ["Litigation exposure (" ++ toString cs.length ++ " cases)"] else []
   | none => []) ++
  (match f.fec with
   | some d => if d.totalAmount.getD 0 > 100000 then ["Political/regulatory exposure"] else []
   | none => [])

/-- Embedding of `generate_intelligence_assessment` from `app.py`.  The
confidence starts at MEDIUM, is set to HIGH by a sanctions match and reset to
MEDIUM in the empty-narrative fallback (which can only fire without a
sanctions match). -/
def generate_intelligence_assessment (f : Findings) (target : String) : Assessment :=
  let parts := narrativeParts f target
  { overallNarrative :=
      String.intercalate " " (if parts.isEmpty then [fallbackNarrative target] else parts)
  , keyConcerns := keyConcernsOf f
  , riskFactors := riskFactorsOf f
  , opportunities := []
  , recommendation := ""
  , confidence := if f.sanctions.count > 0 then "HIGH" else "MEDIUM" }

/-- Adverse-media risk taxonomy of `adverse_media_screening`
(`modules/news_search.py`), verbatim: six sub-categories. -/
def ADVERSE_RISK_CATEGORIES : List (String × List String) :=
  [ ("criminal", ["arrested", "convicted", "indicted", "criminal", "felony", "prison"])
  , ("financial_crime", ["fraud", "embezzlement", "money laundering", "insider trading", "securities fraud"])
  , ("regulatory", ["SEC", "DOJ", "FTC", "investigation", "penalty", "fine", "violation", "sanctions"])
  , ("litigation", ["lawsuit", "sued", "litigation", "settlement", "plaintiff", "defendant"])
  , ("reputation", ["scandal", "misconduct", "harassment", "discrimination", "allegations"])
  , ("financial_distress", ["bankruptcy", "default", "insolvent", "liquidation", "restructuring"]) ]

/-- Lower-cased article text scanned by `adverse_media_screening`
(title and description joined by one space, then lower-cased). -/
def adverseTextOf (title desc : String) : String := lowerStr (title ++ " " ++ desc)

/-- Keyword matches of one adverse-media taxonomy entry against one article
(`[kw for kw in keywords if kw in text]`). -/
def adverseMatchesOf (title desc : String) (keywords : List String) : List String :=
  keywords.filter (fun kw => strContains (adverseTextOf title desc) kw)

/-- Predicate singling out a CRITICAL-severity red flag of category
"Sanctions". -/
def isCriticalSanctionsFlag (g : RedFlag) : Bool :=
  g.severity == "CRITICAL" && g.categoryName == "Sanctions"

/-- Findings with no news signal and configurable court, FEC and sanctions
inputs (news intelligence computed from an empty article list). -/
def emptyNewsFindings (court : Option (List CourtRecord)) (fec : Option FecData)
    (sanc : Nat) : Findings :=
  { newsIntel := analyze_news_intelligence []
  , court := court
  , fec := fec
  , sanctions := ⟨sanc⟩ }

/-- A block of `n` identical civil court records. -/
def sampleCases (n : Nat) : List CourtRecord :=
  List.replicate n ⟨"Case", "Court", "2024-01-01", "civil"⟩

/-- The nine red flags of `calculate_risk` in the detection order of the
source: corporate crisis, bankruptcy, cybersecurity, leadership,
fraud/regulatory, China exposure, litigation volume, political spend, and
sanctions last. -/
def orderedFlagTemplate (f : Findings) : List RedFlag :=
  [crisisRedFlag, bankruptcyRedFlag, breachRedFlag, leadershipRedFlag, fraudRedFlag,
   chinaRedFlag, litigationRedFlag (courtCountOf f), politicalRedFlag (amtOf f),
   sanctionsRedFlag]

/-- Helper: a list holding two distinct elements has length at least two. -/
lemma two_le_length_of_mem_ne {α : Type} {a b : α} {l : List α}
    (hab : a ≠ b) (ha : a ∈ l) (hb : b ∈ l) : 2 ≤ l.length := by
  induction l with
  | nil => exact absurd ha (List.not_mem_nil a)
  | cons x xs ih =>
    rcases List.mem_cons.mp ha with rfl | ha'
    · rcases List.mem_cons.mp hb with rfl | hb'
      · exact absurd rfl hab
      · have := List.length_pos_of_mem hb'
        simp only [List.length_cons]
        omega
    · have := List.length_pos_of_mem ha'
      simp only [List.length_cons]
      omega

/-- Helper: substring containment along an infix of the needle. -/
lemma strContains_of_infix {s t u : String}
    (h : strContains s t = true) (hu : u.toList <:+: t.toList) :
    strContains s u = true := by
  unfold strContains at h ⊢
  rw [decide_eq_true_eq] at h ⊢
  exact hu.trans h

/-- C6: the risk-level classification uses the descending thresholds 65, 50,
35, 20 with each boundary inclusive on the lower bound of its tier; an
overall score of exactly 65 classifies as CRITICAL. -/
theorem risk_level_tier_characterization (q : ℚ) :
    ((riskTier q).level = "CRITICAL RISK" ↔ 65 ≤ q) ∧
    ((riskTier q).level = "HIGH RISK" ↔ 50 ≤ q ∧ q < 65) ∧
    ((riskTier q).level = "ELEVATED RISK" ↔ 35 ≤ q ∧ q < 50) ∧
    ((riskTier q).level = "MODERATE RISK" ↔ 20 ≤ q ∧ q < 35) ∧
    ((riskTier q).level = "LOW RISK" ↔ q < 20) ∧
    (riskTier 65).level = "CRITICAL RISK" := by
  have h65 : (riskTier 65).level = "CRITICAL RISK" := by norm_num [riskTier]
  unfold riskTier
  split_ifs with h1 h2 h3 h4 <;> simp_all <;> repeat' apply And.intro
  all_goals try intro h
  all_goals linarith

/-- C7: the sentiment score of the news analysis is determined solely by the
crisis-match count through strict greater-than tiers (85 above 10, 70 above
5, 55 above 2, baseline 50); a count exactly at a boundary falls to the lower
tier. -/
theorem sentiment_tiers_from_crisis_count (articles : List Article) :
    ((analyze_news_intelligence articles).sentimentScore = 85 ↔
       10 < crisisCountOf articles) ∧
    ((analyze_news_intelligence articles).sentimentScore = 70 ↔
       5 < crisisCountOf articles ∧ crisisCountOf articles ≤ 10) ∧
    ((analyze_news_intelligence articles).sentimentScore = 55 ↔
       2 < crisisCountOf articles ∧ crisisCountOf articles ≤ 5) ∧
    ((analyze_news_intelligence articles).sentimentScore = 50 ↔
       crisisCountOf articles ≤ 2) := by
  have h : (analyze_news_intelligence articles).sentimentScore =
      crisisSentiment (crisisCountOf articles) := rfl
  rw [h]
  unfold crisisSentiment
  split_ifs <;> refine ⟨?_, ?_, ?_, ?_⟩ <;> constructor <;> intro <;> omega

/-- C3 (code bug): keyword matching is not case-insensitive for taxonomy
entries that themselves contain upper-case letters.  The crisis keyword
"SEC investigation" is never recorded even when the article text contains it
verbatim (the text is lower-cased, the keyword is compared verbatim), and the
adverse-media regulatory keyword "SEC" likewise never matches; only the
lower-cased form of the phrase is found in the scanned text. -/
theorem uppercase_keywords_never_match :
    "SEC investigation" ∈ CRISIS_KEYWORDS ∧
    strContains "SEC investigation into Acme" "SEC investigation" = true ∧
    strContains (contentOf ⟨some "SEC investigation into Acme", some "", none, none, none⟩)
      "sec investigation" = true ∧
    crisisFlagsOf ⟨some "SEC investigation into Acme", some "", none, none, none⟩ = [] ∧
    "SEC" ∈ ADVERSE_RISK_CATEGORIES.flatMap (fun p => p.2) ∧
    strContains "SEC opens probe" "SEC" = true ∧
    ADVERSE_RISK_CATEGORIES.map (fun p => adverseMatchesOf "SEC opens probe" "" p.2) =
      [[], [], [], [], [], []] := by
  refine ⟨by decide, by decide, by decide, by decide, by decide, by decide, by decide⟩

/-- C10: an article whose lower-cased text contains "layoffs" records both
the "layoff" and the "layoffs" taxonomy entries as flags, so that single
article contributes at least two to the crisis-match count used for the
sentiment tiers. -/
theorem layoffs_double_crisis_count (a : Article)
    (h : strContains (contentOf a) "layoffs" = true) :
    "layoff" ∈ crisisFlagsOf a ∧ "layoffs" ∈ crisisFlagsOf a ∧
    "layoff" ∈ articleFlags a ∧ "layoffs" ∈ articleFlags a ∧
    2 ≤ (crisisFlagsOf a).length ∧ 2 ≤ crisisCountOf [a] := by
  have h1 : strContains (contentOf a) "layoff" = true :=
    strContains_of_infix h (by decide)
  have m1 : "layoff" ∈ crisisFlagsOf a := by
    unfold crisisFlagsOf
    exact List.mem_filter.mpr ⟨by decide, h1⟩
  have m2 : "layoffs" ∈ crisisFlagsOf a := by
    unfold crisisFlagsOf
    exact List.mem_filter.mpr ⟨by decide, h⟩
  have hlen : 2 ≤ (crisisFlagsOf a).length :=
    two_le_length_of_mem_ne (by decide) m1 m2
  have hc : crisisCountOf [a] = (crisisFlagsOf a).length := by
    simp [crisisCountOf]
  refine ⟨m1, m2, ?_, ?_, hlen, by omega⟩
  · unfold articleFlags
    exact List.mem_append.mpr (Or.inl (List.mem_append.mpr (Or.inl m1)))
  · unfold articleFlags
    exact List.mem_append.mpr (Or.inl (List.mem_append.mpr (Or.inl m2)))

/-- Witness for C10 at a concrete article: the scan records exactly the two
entries "layoff" and "layoffs" for it. -/
theorem layoffs_double_crisis_count_witness :
    ("layoff" ∈ crisisFlagsOf ⟨some "Company announces layoffs", some "", none, none, none⟩ ∧
     "layoffs" ∈ crisisFlagsOf ⟨some "Company announces layoffs", some "", none, none, none⟩ ∧
     "layoff" ∈ articleFlags ⟨some "Company announces layoffs", some "", none, none, none⟩ ∧
     "layoffs" ∈ articleFlags ⟨some "Company announces layoffs", some "", none, none, none⟩ ∧
     2 ≤ (crisisFlagsOf ⟨some "Company announces layoffs", some "", none, none, none⟩).length ∧
     2 ≤ crisisCountOf [⟨some "Company announces layoffs", some "", none, none, none⟩]) ∧
    crisisFlagsOf ⟨some "Company announces layoffs", some "", none, none, none⟩ =
      ["layoff", "layoffs"] ∧
    crisisCountOf [⟨some "Company announces layoffs", some "", none, none, none⟩] = 2 :=
  ⟨layoffs_double_crisis_count _ (by decide), by decide, by decide⟩

/-- C2: the overall score returned by `calculate_risk` is exactly the sum of
score times weight over the nine fixed categories, the nine weights sum to 1,
and no rounding or clamping is applied to the sum. -/
theorem overall_is_weighted_sum_of_nine_categories (f : Findings) :
    (calculate_risk f).overall =
      (((calculate_risk f).categories).map (fun c => c.score * c.weight)).sum ∧
    (((calculate_risk f).categories).map (fun c => c.weight)).sum = 1 ∧
    ((calculate_risk f).categories).map (fun c => c.name) =
      ["Leadership", "Financial", "Legal", "Regulatory", "Reputational",
       "Political", "Operational", "Geopolitical", "Supply Chain"] := by
  refine ⟨rfl, ?_, rfl⟩
  norm_num [calculate_risk, categoriesOf]

/-- C1: a sanctions match count greater than zero forces the Regulatory
category score to exactly 100 and emits exactly one CRITICAL-severity red
flag with category "Sanctions". -/
theorem sanctions_forces_regulatory_100_unique_flag (f : Findings)
    (h : f.sanctions.count > 0) :
    (((calculate_risk f).categories.filter (fun c => c.name == "Regulatory")).map
       (fun c => c.score)) = [100] ∧
    (calculate_risk f).redFlags.countP isCriticalSanctionsFlag = 1 := by
  have hs : sanctionsCond f := h
  constructor
  · have hreg : regulatoryScore f = 100 := by
      unfold regulatoryScore
      rw [if_pos hs]
    simp [calculate_risk, categoriesOf, hreg]
  · show (redFlagsOf f).countP isCriticalSanctionsFlag = 1
    unfold redFlagsOf
    rcases f.court with _ | cs <;> rcases f.fec with _ | d <;>
      simp [apply_ite (List.countP isCriticalSanctionsFlag), List.countP_append,
            List.countP_cons, isCriticalSanctionsFlag, crisisRedFlag, bankruptcyRedFlag,
            breachRedFlag, leadershipRedFlag, fraudRedFlag, chinaRedFlag,
            litigationRedFlag, politicalRedFlag, sanctionsRedFlag, if_pos hs]

/-- Witness for C1 at a concrete input with one sanctions match. -/
theorem sanctions_forces_regulatory_100_unique_flag_witness :
    (((calculate_risk ⟨⟨0, [], [], [], 50, [], ""⟩, some [], some ⟨some 0⟩, ⟨1⟩⟩).categories.filter
        (fun c => c.name == "Regulatory")).map (fun c => c.score)) = [100] ∧
    (calculate_risk ⟨⟨0, [], [], [], 50, [], ""⟩, some [], some ⟨some 0⟩, ⟨1⟩⟩).redFlags.countP
      isCriticalSanctionsFlag = 1 :=
  sanctions_forces_regulatory_100_unique_flag _ (by decide)

/-- C9 counterexample: the Legal score produced from litigation volume alone
is 50 at three records and 75 at six, values no rule of the form
`min(count * multiplier, 100)` can produce. -/
theorem legal_score_not_min_multiplier_cex :
    (((calculate_risk (emptyNewsFindings (some (sampleCases 3)) (some ⟨some 0⟩) 0)).categories.filter
        (fun c => c.name == "Legal")).map (fun c => c.score)) = [50] ∧
    (((calculate_risk (emptyNewsFindings (some (sampleCases 6)) (some ⟨some 0⟩) 0)).categories.filter
        (fun c => c.name == "Legal")).map (fun c => c.score)) = [75] ∧
    ¬ ∃ m : ℚ, min (3 * m) 100 = 50 ∧ min (6 * m) 100 = 75 := by
  refine ⟨by decide, by decide, ?_⟩
  rintro ⟨m, h3, h6⟩
  rcases min_eq_iff.mp h3 with ⟨h, _⟩ | ⟨h, _⟩
  · have hm : m = 50 / 3 := by linarith
    rw [hm] at h6
    norm_num at h6
  · norm_num at h

/-- C9 (amended): the litigation count raises the Legal score through the
threshold buckets of the source (`max(score, 75)` above five records,
`max(score, 50)` above two); a litigation list of exactly six records with no
other signals yields Legal score 75 under the greater-than-five rule and a
single red flag whose finding text mentions "6". -/
theorem litigation_six_cases_legal_75 (cs : List CourtRecord) (h : cs.length = 6) :
    (((calculate_risk (emptyNewsFindings (some cs) (some ⟨some 0⟩) 0)).categories.filter
        (fun c => c.name == "Legal")).map (fun c => c.score)) = [75] ∧
    (calculate_risk (emptyNewsFindings (some cs) (some ⟨some 0⟩) 0)).redFlags =
      [litigationRedFlag 6] ∧
    strContains (litigationRedFlag 6).finding "6" = true := by
  have hs50 : sentimentOf (emptyNewsFindings (some cs) (some ⟨some 0⟩) 0) = 50 := rfl
  have hfound : foundKeywords (emptyNewsFindings (some cs) (some ⟨some 0⟩) 0) = [] := rfl
  have hgeo : (emptyNewsFindings (some cs) (some ⟨some 0⟩) 0).newsIntel.geoRisks = [] := rfl
  have hsup : (emptyNewsFindings (some cs) (some ⟨some 0⟩) 0).newsIntel.supplyRisks = [] := rfl
  have hcourt : (emptyNewsFindings (some cs) (some ⟨some 0⟩) 0).court = some cs := rfl
  have hfec : (emptyNewsFindings (some cs) (some ⟨some 0⟩) 0).fec = some ⟨some 0⟩ := rfl
  have hsanc : (emptyNewsFindings (some cs) (some ⟨some 0⟩) 0).sanctions = ⟨0⟩ := rfl
  have hleg : legalScore (emptyNewsFindings (some cs) (some ⟨some 0⟩) 0) = 75 := by
    unfold legalScore fraudCond
    simp only [hfound, hcourt, h]
    norm_num
  refine ⟨?_, ?_, by decide⟩
  · simp [calculate_risk, categoriesOf, hleg]
  · show redFlagsOf (emptyNewsFindings (some cs) (some ⟨some 0⟩) 0) = [litigationRedFlag 6]
    unfold redFlagsOf crisisCond bankruptcyCond breachCond leadershipCond fraudCond
      sanctionsCond
    simp only [hs50, hfound, hcourt, hfec, hgeo, hsanc, h]
    norm_num

/-- Witness for C9 (amended) at six concrete court records. -/
theorem litigation_six_cases_legal_75_witness :
    (((calculate_risk (emptyNewsFindings (some (sampleCases 6)) (some ⟨some 0⟩) 0)).categories.filter
        (fun c => c.name == "Legal")).map (fun c => c.score)) = [75] ∧
    (calculate_risk (emptyNewsFindings (some (sampleCases 6)) (some ⟨some 0⟩) 0)).redFlags =
      [litigationRedFlag 6] ∧
    strContains (litigationRedFlag 6).finding "6" = true :=
  litigation_six_cases_legal_75 (sampleCases 6) (by decide)

/-- C8: with zero findings from every provider (no news, empty litigation
list, zero donation total, zero sanctions matches) the pipeline still
produces a valid verdict: no red flags, the single fallback narrative
sentence, MEDIUM confidence, and an overall score equal to the weighted sum
of the category baselines (13). -/
theorem zero_findings_baseline_verdict (target : String) :
    (calculate_risk (emptyNewsFindings (some []) (some ⟨some 0⟩) 0)).redFlags = [] ∧
    (generate_intelligence_assessment (emptyNewsFindings (some []) (some ⟨some 0⟩) 0)
        target).overallNarrative = fallbackNarrative target ∧
    (generate_intelligence_assessment (emptyNewsFindings (some []) (some ⟨some 0⟩) 0)
        target).confidence = "MEDIUM" ∧
    (calculate_risk (emptyNewsFindings (some []) (some ⟨some 0⟩) 0)).overall =
      15 * 0.15 + 15 * 0.20 + 15 * 0.15 + 10 * 0.10 + 15 * 0.10 + 10 * 0.05 +
        10 * 0.10 + 10 * 0.10 + 10 * 0.05 ∧
    (calculate_risk (emptyNewsFindings (some []) (some ⟨some 0⟩) 0)).overall = 13 := by
  have hparts : narrativeParts (emptyNewsFindings (some []) (some ⟨some 0⟩) 0) target = [] := by
    unfold narrativeParts
    simp only [show rawFoundKeywords (emptyNewsFindings (some []) (some ⟨some 0⟩) 0) = []
                 from rfl,
               show (emptyNewsFindings (some []) (some ⟨some 0⟩) 0).newsIntel.crisisSignals = []
                 from rfl,
               show (emptyNewsFindings (some []) (some ⟨some 0⟩) 0).newsIntel.keyArticles = []
                 from rfl,
               show (emptyNewsFindings (some []) (some ⟨some 0⟩) 0).newsIntel.geoRisks = []
                 from rfl,
               show (emptyNewsFindings (some []) (some ⟨some 0⟩) 0).newsIntel.supplyRisks = []
                 from rfl,
               show (emptyNewsFindings (some []) (some ⟨some 0⟩) 0).court = some [] from rfl,
               show (emptyNewsFindings (some []) (some ⟨some 0⟩) 0).fec = some ⟨some 0⟩ from rfl,
               show (emptyNewsFindings (some []) (some ⟨some 0⟩) 0).sanctions = ⟨0⟩ from rfl]
    norm_num
  have hL : leadershipScore (emptyNewsFindings (some []) (some ⟨some 0⟩) 0) = 15 := by decide
  have hFi : financialScore (emptyNewsFindings (some []) (some ⟨some 0⟩) 0) = 15 := by decide
  have hLe : legalScore (emptyNewsFindings (some []) (some ⟨some 0⟩) 0) = 15 := by decide
  have hRg : regulatoryScore (emptyNewsFindings (some []) (some ⟨some 0⟩) 0) = 10 := by decide
  have hRp : reputationalScore (emptyNewsFindings (some []) (some ⟨some 0⟩) 0) = 15 := by decide
  have hPo : politicalScore (emptyNewsFindings (some []) (some ⟨some 0⟩) 0) = 10 := by decide
  have hOp : operationalScore (emptyNewsFindings (some []) (some ⟨some 0⟩) 0) = 10 := by decide
  have hGe : geopoliticalScore (emptyNewsFindings (some []) (some ⟨some 0⟩) 0) = 10 := by decide
  have hSu : supplyChainScore (emptyNewsFindings (some []) (some ⟨some 0⟩) 0) = 10 := by decide
  have hov : (calculate_risk (emptyNewsFindings (some []) (some ⟨some 0⟩) 0)).overall = 13 := by
    show overallScore (emptyNewsFindings (some []) (some ⟨some 0⟩) 0) = 13
    unfold overallScore categoriesOf
    simp only [List.map_cons, List.map_nil, List.sum_cons, List.sum_nil,
               hL, hFi, hLe, hRg, hRp, hPo, hOp, hGe, hSu]
    norm_num
  refine ⟨by decide, ?_, rfl, by rw [hov]; norm_num, hov⟩
  show String.intercalate " "
      (if (narrativeParts (emptyNewsFindings (some []) (some ⟨some 0⟩) 0) target).isEmpty then
        [fallbackNarrative target]
      else narrativeParts (emptyNewsFindings (some []) (some ⟨some 0⟩) 0) target) =
    fallbackNarrative target
  rw [hparts]
  rfl

/-- Helper: a conditional singleton is a sublist of the singleton. -/
lemma ite_singleton_sublist {α : Type} (c : Prop) [Decidable c] (x : α) :
    (if c then [x] else []).Sublist [x] := by
  split
  · exact List.Sublist.refl _
  · exact List.nil_sublist _

/-- Helper: membership in a conditional singleton forces equality. -/
lemma eq_of_mem_ite_singleton {α : Type} {c : Prop} [Decidable c] {x g : α}
    (hg : g ∈ (if c then [x] else [])) : g = x := by
  split at hg
  · simpa using hg
  · exact absurd hg (List.not_mem_nil g)

/-- C4 counterexample: on a findings input carrying both a bankruptcy keyword
flag and a sanctions match, `calculate_risk` returns the financial flag
before the sanctions flag, so the sanctions flag does not precede the other
flag as claimed. -/
theorem red_flag_order_sanctions_not_first_cex :
    ((calculate_risk ⟨⟨1, [], [], [], 50, [⟨"t", "s", "d", "u", ["bankruptcy"]⟩], ""⟩,
        some [], some ⟨some 0⟩, ⟨1⟩⟩).redFlags.map (fun g => g.categoryName)) =
      ["Financial", "Sanctions"] ∧
    ((calculate_risk ⟨⟨1, [], [], [], 50, [⟨"t", "s", "d", "u", ["bankruptcy"]⟩], ""⟩,
        some [], some ⟨some 0⟩, ⟨1⟩⟩).redFlags.map (fun g => g.categoryName)) ≠
      ["Sanctions", "Financial"] :=
  ⟨by decide, by decide⟩

/-- C4 (amended): the red-flag list follows the fixed detection order
corporate-crisis, financial, cybersecurity, leadership, regulatory/legal,
geopolitical, litigation, political, sanctions — with the sanctions flag
last; whenever a sanctions flag and any other flag are emitted in the same
run, the sanctions flag follows every other flag. -/
theorem red_flags_detection_order_sanctions_last (f : Findings)
    (h : f.sanctions.count > 0) :
    (calculate_risk f).redFlags.Sublist (orderedFlagTemplate f) ∧
    ∃ l, (calculate_risk f).redFlags = l ++ [sanctionsRedFlag] ∧
      ∀ g ∈ l, g.categoryName ≠ "Sanctions" := by
  have hs : sanctionsCond f := h
  have s6 : (if f.newsIntel.geoRisks ≠ [] then
      (if chinaCond f then [chinaRedFlag] else []) else []).Sublist [chinaRedFlag] := by
    split
    · exact ite_singleton_sublist _ _
    · exact List.nil_sublist _
  constructor
  · show (redFlagsOf f).Sublist (orderedFlagTemplate f)
    have s7 : (match f.court with
        | some cs => if cs.length > 5 then [litigationRedFlag cs.length] else []
        | none => []).Sublist [litigationRedFlag (courtCountOf f)] := by
      cases hc : f.court with
      | none => exact List.nil_sublist _
      | some cs =>
        have hcc : courtCountOf f = cs.length := by unfold courtCountOf; rw [hc]
        rw [hcc]
        exact ite_singleton_sublist _ _
    have s8 : (match f.fec with
        | some d => if d.totalAmount.getD 0 > 500000 then
            [politicalRedFlag (d.totalAmount.getD 0)] else []
        | none => []).Sublist [politicalRedFlag (amtOf f)] := by
      cases hc : f.fec with
      | none => exact List.nil_sublist _
      | some d =>
        have hcc : amtOf f = d.totalAmount.getD 0 := by unfold amtOf; rw [hc]
        rw [hcc]
        exact ite_singleton_sublist _ _
    exact ((((((((ite_singleton_sublist (crisisCond f) crisisRedFlag).append
      (ite_singleton_sublist (bankruptcyCond f) bankruptcyRedFlag)).append
      (ite_singleton_sublist (breachCond f) breachRedFlag)).append
      (ite_singleton_sublist (leadershipCond f) leadershipRedFlag)).append
      (ite_singleton_sublist (fraudCond f) fraudRedFlag)).append s6).append s7).append
      s8).append (ite_singleton_sublist (sanctionsCond f) sanctionsRedFlag)
  · refine ⟨(if crisisCond f then [crisisRedFlag] else []) ++
      (if bankruptcyCond f then [bankruptcyRedFlag] else []) ++
      (if breachCond f then [breachRedFlag] else []) ++
      (if leadershipCond f then [leadershipRedFlag] else []) ++
      (if fraudCond f then [fraudRedFlag] else []) ++
      (if f.newsIntel.geoRisks ≠ [] then
        (if chinaCond f then [chinaRedFlag] else []) else []) ++
      (match f.court with
       | some cs => if cs.length > 5 then [litigationRedFlag cs.length] else []
       | none => []) ++
      (match f.fec with
       | some d => if d.totalAmount.getD 0 > 500000 then
           [politicalRedFlag (d.totalAmount.getD 0)] else []
       | none => []), ?_, ?_⟩
    · show redFlagsOf f = _
      unfold redFlagsOf
      rw [if_pos hs]
    · intro g hg
      simp only [List.mem_append] at hg
      rcases hg with ((((((hg | hg) | hg) | hg) | hg) | hg) | hg) | hg
      · rw [eq_of_mem_ite_singleton hg]; decide
      · rw [eq_of_mem_ite_singleton hg]; decide
      · rw [eq_of_mem_ite_singleton hg]; decide
      · rw [eq_of_mem_ite_singleton hg]; decide
      · rw [eq_of_mem_ite_singleton hg]; decide
      · split at hg
        · rw [eq_of_mem_ite_singleton hg]; decide
        · exact absurd hg (List.not_mem_nil g)
      · rcases hc : f.court with _ | cs <;> rw [hc] at hg
        · exact absurd hg (List.not_mem_nil g)
        · have := eq_of_mem_ite_singleton hg
          rw [this]
          show ("Legal" : String) ≠ "Sanctions"
          decide
      · rcases hc : f.fec with _ | d <;> rw [hc] at hg
        · exact absurd hg (List.not_mem_nil g)
        · have := eq_of_mem_ite_singleton hg
          rw [this]
          show ("Political" : String) ≠ "Sanctions"
          decide

/-- Witness for C4 (amended) at a concrete input with a sanctions match. -/
theorem red_flags_detection_order_sanctions_last_witness :
    (calculate_risk (emptyNewsFindings (some []) (some ⟨some 0⟩) 1)).redFlags.Sublist
      (orderedFlagTemplate (emptyNewsFindings (some []) (some ⟨some 0⟩) 1)) ∧
    ∃ l, (calculate_risk (emptyNewsFindings (some []) (some ⟨some 0⟩) 1)).redFlags =
        l ++ [sanctionsRedFlag] ∧
      ∀ g ∈ l, g.categoryName ≠ "Sanctions" :=
  red_flags_detection_order_sanctions_last _ (by decide)

/-- Helper: a two-valued conditional is monotone when the condition only
switches on and the on-value dominates. -/
lemma ite_const_le_ite_const {c₁ c₂ : Prop} [Decidable c₁] [Decidable c₂]
    (himp : c₁ → c₂) {lo hi : ℚ} (hlh : lo ≤ hi) :
    (if c₁ then hi else lo) ≤ (if c₂ then hi else lo) := by
  by_cases h2 : c₂
  · rw [if_pos h2]
    split_ifs
    · exact le_rfl
    · exact hlh
  · rw [if_neg (fun h1 => h2 (himp h1)), if_neg h2]

/-- Helper: a conditional `max`-raise step preserves order when the condition
only switches on. -/
lemma max_step {c₁ c₂ : Prop} [Decidable c₁] [Decidable c₂]
    (himp : c₁ → c₂) {a b : ℚ} (hab : a ≤ b) (v : ℚ) :
    (if c₁ then max a v else a) ≤ (if c₂ then max b v else b) := by
  by_cases h2 : c₂
  · rw [if_pos h2]
    split_ifs
    · exact max_le_max hab le_rfl
    · exact le_trans hab (le_max_left b v)
  · rw [if_neg (fun h1 => h2 (himp h1)), if_neg h2]
    exact hab

/-- C5: for two findings that agree everywhere except that the second carries
one additional matching crisis-keyword occurrence (its crisis count is one
higher, so its sentiment is the tier of `c + 1`, and its found-keyword set
contains that of the first), the Financial, Operational and Reputational category
scores and the overall weighted score of `calculate_risk` never decrease. -/
theorem crisis_keyword_monotonicity (f₁ f₂ : Findings) (c : Nat)
    (hs₁ : f₁.newsIntel.sentimentScore = crisisSentiment c)
    (hs₂ : f₂.newsIntel.sentimentScore = crisisSentiment (c + 1))
    (hk : ∀ s, s ∈ foundKeywords f₁ → s ∈ foundKeywords f₂)
    (hgeo : f₁.newsIntel.geoRisks = f₂.newsIntel.geoRisks)
    (hsup : f₁.newsIntel.supplyRisks = f₂.newsIntel.supplyRisks)
    (hcourt : f₁.court = f₂.court)
    (hfec : f₁.fec = f₂.fec)
    (hsanc : f₁.sanctions = f₂.sanctions) :
    financialScore f₁ ≤ financialScore f₂ ∧
    operationalScore f₁ ≤ operationalScore f₂ ∧
    reputationalScore f₁ ≤ reputationalScore f₂ ∧
    (calculate_risk f₁).overall ≤ (calculate_risk f₂).overall := by
  have hsent : sentimentOf f₁ ≤ sentimentOf f₂ := by
    unfold sentimentOf
    rw [hs₁, hs₂]
    unfold crisisSentiment
    split_ifs <;> omega
  have hb : bankruptcyCond f₁ → bankruptcyCond f₂ := by
    unfold bankruptcyCond
    rintro (h | h | h)
    exacts [Or.inl (hk _ h), Or.inr (Or.inl (hk _ h)), Or.inr (Or.inr (hk _ h))]
  have hbr : breachCond f₁ → breachCond f₂ := by
    unfold breachCond
    rintro (h | h | h)
    exacts [Or.inl (hk _ h), Or.inr (Or.inl (hk _ h)), Or.inr (Or.inr (hk _ h))]
  have hlead : leadershipCond f₁ → leadershipCond f₂ := by
    unfold leadershipCond
    rintro (h | h | h)
    exacts [Or.inl (hk _ h), Or.inr (Or.inl (hk _ h)), Or.inr (Or.inr (hk _ h))]
  have hfr : fraudCond f₁ → fraudCond f₂ := by
    unfold fraudCond
    rintro (h | h | h | h)
    exacts [Or.inl (hk _ h), Or.inr (Or.inl (hk _ h)), Or.inr (Or.inr (Or.inl (hk _ h))),
            Or.inr (Or.inr (Or.inr (hk _ h)))]
  have hlay : layoffCond f₁ → layoffCond f₂ := by
    unfold layoffCond
    rintro (h | h | h)
    exacts [Or.inl (hk _ h), Or.inr (Or.inl (hk _ h)), Or.inr (Or.inr (hk _ h))]
  have hfin : financialScore f₁ ≤ financialScore f₂ := by
    by_cases h2 : bankruptcyCond f₂
    · have hr : financialScore f₂ = 95 := by
        simp only [financialScore]
        rw [if_pos h2]
      have hl : financialScore f₁ ≤ 95 := by
        simp only [financialScore]
        split_ifs <;> norm_num
      rw [hr]
      exact hl
    · have h1 : ¬ bankruptcyCond f₁ := fun hx => h2 (hb hx)
      simp only [financialScore]
      rw [if_neg h1, if_neg h2]
      split_ifs <;> try norm_num
      all_goals omega
  have hrep : reputationalScore f₁ ≤ reputationalScore f₂ := by
    simp only [reputationalScore]
    split_ifs <;> try norm_num
    all_goals omega
  have h0 : (if sentimentOf f₁ ≥ 80 then (75 : ℚ) else if sentimentOf f₁ ≥ 65 then 55 else 10) ≤
      (if sentimentOf f₂ ≥ 80 then 75 else if sentimentOf f₂ ≥ 65 then 55 else 10) := by
    split_ifs <;> try norm_num
    all_goals omega
  have hop : operationalScore f₁ ≤ operationalScore f₂ := by
    simp only [operationalScore]
    exact max_step hlay (max_step hbr h0 75) 55
  have hbase : (if fraudCond f₁ then (85 : ℚ) else 15) ≤ (if fraudCond f₂ then 85 else 15) :=
    ite_const_le_ite_const hfr (by norm_num)
  have legSome : ∀ (g : Findings) (cs : List CourtRecord), g.court = some cs →
      legalScore g = (if cs.length > 5 then max (if fraudCond g then (85 : ℚ) else 15) 75
        else if cs.length > 2 then max (if fraudCond g then (85 : ℚ) else 15) 50
        else (if fraudCond g then (85 : ℚ) else 15)) := by
    intro g cs h
    simp only [legalScore]
    rw [h]
  have legNone : ∀ g : Findings, g.court = none →
      legalScore g = (if fraudCond g then (85 : ℚ) else 15) := by
    intro g h
    simp only [legalScore]
    rw [h]
  have hleg : legalScore f₁ ≤ legalScore f₂ := by
    rcases hcs : f₂.court with _ | cs
    · rw [legNone f₁ (hcourt.trans hcs), legNone f₂ hcs]
      exact hbase
    · rw [legSome f₁ cs (hcourt.trans hcs), legSome f₂ cs hcs]
      split_ifs <;> try norm_num [max_def]
      all_goals tauto
  have hsiff : sanctionsCond f₁ ↔ sanctionsCond f₂ := by
    unfold sanctionsCond
    rw [hsanc]
  have hm : max (10 : ℚ) 65 = 65 := max_eq_right (by norm_num)
  have hreg : regulatoryScore f₁ ≤ regulatoryScore f₂ := by
    simp only [regulatoryScore]
    by_cases hsc : sanctionsCond f₂
    · rw [if_pos (hsiff.mpr hsc), if_pos hsc]
    · rw [if_neg (fun hh => hsc (hsiff.mp hh)), if_neg hsc]
      by_cases hf2 : fraudCond f₂
      · rw [if_pos hf2]
        split_ifs <;> norm_num [hm]
      · rw [if_neg (fun hh => hf2 (hfr hh)), if_neg hf2]
        by_cases hb2 : breachCond f₂
        · rw [if_pos hb2]
          split_ifs <;> norm_num [hm]
        · rw [if_neg (fun hh => hb2 (hbr hh)), if_neg hb2]
  have hpol : politicalScore f₁ = politicalScore f₂ := by
    simp only [politicalScore]
    rw [hfec]
  have hgeoS : geopoliticalScore f₁ = geopoliticalScore f₂ := by
    simp only [geopoliticalScore, chinaCond, hgeo]
  have hsupS : supplyChainScore f₁ = supplyChainScore f₂ := by
    simp only [supplyChainScore, hsup]
  have hldr : leadershipScore f₁ ≤ leadershipScore f₂ := by
    simp only [leadershipScore]
    exact ite_const_le_ite_const hlead (by norm_num)
  have hovl : ∀ g : Findings, (calculate_risk g).overall =
      leadershipScore g * 0.15 + (financialScore g * 0.20 + (legalScore g * 0.15 +
        (regulatoryScore g * 0.10 + (reputationalScore g * 0.10 + (politicalScore g * 0.05 +
        (operationalScore g * 0.10 + (geopoliticalScore g * 0.10 +
        (supplyChainScore g * 0.05 + 0)))))))) := fun g => rfl
  refine ⟨hfin, hop, hrep, ?_⟩
  rw [hovl f₁, hovl f₂]
  exact add_le_add (mul_le_mul_of_nonneg_right hldr (by norm_num))
    (add_le_add (mul_le_mul_of_nonneg_right hfin (by norm_num))
      (add_le_add (mul_le_mul_of_nonneg_right hleg (by norm_num))
        (add_le_add (mul_le_mul_of_nonneg_right hreg (by norm_num))
          (add_le_add (mul_le_mul_of_nonneg_right hrep (by norm_num))
            (add_le_add (mul_le_mul_of_nonneg_right (le_of_eq hpol) (by norm_num))
              (add_le_add (mul_le_mul_of_nonneg_right hop (by norm_num))
                (add_le_add (mul_le_mul_of_nonneg_right (le_of_eq hgeoS) (by norm_num))
                  (add_le_add (mul_le_mul_of_nonneg_right (le_of_eq hsupS) (by norm_num))
                    le_rfl))))))))

/-- Witness for C5 at concrete findings (crisis counts 0 and 1 share the
baseline tier, so the hypotheses hold between two empty-news runs). -/
theorem crisis_keyword_monotonicity_witness :
    financialScore (emptyNewsFindings (some []) (some ⟨some 0⟩) 0) ≤
      financialScore (emptyNewsFindings (some []) (some ⟨some 0⟩) 0) ∧
    operationalScore (emptyNewsFindings (some []) (some ⟨some 0⟩) 0) ≤
      operationalScore (emptyNewsFindings (some []) (some ⟨some 0⟩) 0) ∧
    reputationalScore (emptyNewsFindings (some []) (some ⟨some 0⟩) 0) ≤
      reputationalScore (emptyNewsFindings (some []) (some ⟨some 0⟩) 0) ∧
    (calculate_risk (emptyNewsFindings (some []) (some ⟨some 0⟩) 0)).overall ≤
      (calculate_risk (emptyNewsFindings (some []) (some ⟨some 0⟩) 0)).overall :=
  crisis_keyword_monotonicity _ _ 0 rfl rfl (fun _ h => h) rfl rfl rfl rfl rfl
